import Mathlib

/-!
Shallow embedding of the organization-scoped authorization, plan-enforcement
and invite model of the team-asset-buddy repository, together with theorems
settling the specification claims about it.

Sources embedded:
- supabase/migrations/20260126210213 (tables, security definer predicates,
  row-level security policies),
- supabase/migrations/20260126203913 (legacy global `is_admin`),
- supabase/migrations/20260126205038 (`get_license_full_key`),
- supabase/migrations/20260126210227 (invite update policy),
- src/lib/plans (PLAN_LIMITS) and src/contexts/SubscriptionContext.tsx,
- src/pages/AcceptInvite.tsx, src/pages/CreateOrganization.tsx,
- src/pages/OrganizationMembers.tsx,
- src/components/BulkImportDialog (CSV parsing and import),
- src/pages/CreateLicense / BulkImportDialog (`generateMaskedKey`).
-/

namespace TeamAssetBuddy

/-- The `org_role` enum: `CREATE TYPE public.org_role AS ENUM ('owner', 'admin', 'member')`. -/
inductive OrgRole where
  | owner
  | admin
  | member
deriving DecidableEq, Repr

/-- A row of `public.organization_members`; `UNIQUE(organization_id, user_id)` is
enforced by the insert model below.  Ids are abstracted to naturals. -/
structure MemberRow where
  organization_id : Nat
  user_id : Nat
  role : OrgRole
deriving DecidableEq, Repr

/-- `public.is_org_member(_user_id, _org_id)`: true iff a membership row exists
for the pair. -/
def is_org_member (ms : List MemberRow) (u o : Nat) : Bool :=
  ms.any fun r => r.user_id == u && r.organization_id == o

/-- `public.has_org_role(_user_id, _org_id, _role)`: exact-role membership test. -/
def has_org_role (ms : List MemberRow) (u o : Nat) (ρ : OrgRole) : Bool :=
  ms.any fun r => r.user_id == u && r.organization_id == o && r.role == ρ

/-- `public.is_org_admin(_user_id, _org_id)`: membership with role in
`('admin', 'owner')`. -/
def is_org_admin (ms : List MemberRow) (u o : Nat) : Bool :=
  ms.any fun r =>
    r.user_id == u && r.organization_id == o
      && (r.role == OrgRole.admin || r.role == OrgRole.owner)

/-- The legacy `app_role` enum on `public.profiles`: `'admin' | 'employee'`. -/
inductive AppRole where
  | admin
  | employee
deriving DecidableEq, Repr

/-- A row of `public.profiles` (only the columns the embedded code reads). -/
structure ProfileRow where
  id : Nat
  role : AppRole
deriving DecidableEq, Repr

/-- `public.is_admin(_user_id)` (migration 20260126203913): true iff a profiles
row with this id has the legacy global role `'admin'`. -/
def is_admin (profiles : List ProfileRow) (u : Nat) : Bool :=
  profiles.any fun p => p.id == u && p.role == AppRole.admin

/-- A row of `public.assets` (columns used by the row-level security policies). -/
structure AssetRow where
  id : Nat
  organization_id : Nat
  assignee_user_id : Option Nat
deriving DecidableEq, Repr

/-- A row of `public.licenses` (columns used by the policies and by
`get_license_full_key`). -/
structure LicenseRow where
  id : Nat
  organization_id : Nat
  seat_key_full : Option String
deriving DecidableEq, Repr

/-- A row of `public.audit_log` (columns used by the policies). -/
structure AuditLogRow where
  id : Nat
  organization_id : Nat
  by_user_id : Nat
deriving DecidableEq, Repr

/-- Policy "Org members can view assets": `USING (is_org_member(auth.uid(), organization_id))`. -/
def assetSelectAllowed (ms : List MemberRow) (uid : Nat) (a : AssetRow) : Bool :=
  is_org_member ms uid a.organization_id

/-- Policy "Org admins can insert assets": `WITH CHECK (is_org_admin(auth.uid(), organization_id))`. -/
def assetInsertAllowed (ms : List MemberRow) (uid : Nat) (a : AssetRow) : Bool :=
  is_org_admin ms uid a.organization_id

/-- Policy "Org admins or assignees can update assets":
`USING (is_org_admin(auth.uid(), organization_id) OR assignee_user_id = auth.uid())`. -/
def assetUpdateAllowed (ms : List MemberRow) (uid : Nat) (a : AssetRow) : Bool :=
  is_org_admin ms uid a.organization_id || a.assignee_user_id == some uid

/-- Policy "Org admins can delete assets". -/
def assetDeleteAllowed (ms : List MemberRow) (uid : Nat) (a : AssetRow) : Bool :=
  is_org_admin ms uid a.organization_id

/-- Policy "Org admins can view licenses": `USING (is_org_admin(auth.uid(), organization_id))`. -/
def licenseSelectAllowed (ms : List MemberRow) (uid : Nat) (l : LicenseRow) : Bool :=
  is_org_admin ms uid l.organization_id

/-- Policy "Org admins can insert licenses". -/
def licenseInsertAllowed (ms : List MemberRow) (uid : Nat) (l : LicenseRow) : Bool :=
  is_org_admin ms uid l.organization_id

/-- Policy "Org admins can update licenses". -/
def licenseUpdateAllowed (ms : List MemberRow) (uid : Nat) (l : LicenseRow) : Bool :=
  is_org_admin ms uid l.organization_id

/-- Policy "Org admins can delete licenses". -/
def licenseDeleteAllowed (ms : List MemberRow) (uid : Nat) (l : LicenseRow) : Bool :=
  is_org_admin ms uid l.organization_id

/-- The `licenses_safe` view row filter:
`WHERE public.is_org_member(auth.uid(), organization_id)`. -/
def licensesSafeVisible (ms : List MemberRow) (uid : Nat) (l : LicenseRow) : Bool :=
  is_org_member ms uid l.organization_id

/-- Policy "Org members can view audit logs". -/
def auditSelectAllowed (ms : List MemberRow) (uid : Nat) (e : AuditLogRow) : Bool :=
  is_org_member ms uid e.organization_id

/-- Policy "Org members can insert audit logs":
`WITH CHECK (is_org_member(auth.uid(), organization_id) AND by_user_id = auth.uid())`. -/
def auditInsertAllowed (ms : List MemberRow) (uid : Nat) (e : AuditLogRow) : Bool :=
  is_org_member ms uid e.organization_id && e.by_user_id == uid

/-- `public.get_license_full_key(_license_id)` (migration 20260126205038):
raises `'Unauthorized: Only admins can access full license keys'` unless the
legacy global `is_admin(auth.uid())` holds, else selects `seat_key_full` for
the given license id (`none` when the row or the key is absent). -/
def get_license_full_key (profiles : List ProfileRow) (licenses : List LicenseRow)
    (uid lid : Nat) : Except String (Option String) :=
  if !(is_admin profiles uid) then
    .error "Unauthorized: Only admins can access full license keys"
  else
    .ok ((licenses.find? fun l => l.id == lid).bind fun l => l.seat_key_full)

/-- JavaScript `fullKey.slice(-4)`: the string of the last 4 characters. -/
def sliceLast4 (s : String) : String :=
  ⟨(s.data.reverse.take 4).reverse⟩

/-- JavaScript `s.toLowerCase()`, character by character. -/
def toLowerCase (s : String) : String :=
  ⟨s.data.map Char.toLower⟩

/-- `generateMaskedKey` (CreateLicense.tsx / BulkImportDialog): keys of length
at most 4 are masked to `"****"`, longer keys to the fixed placeholder groups
followed by the last 4 characters (`fullKey.slice(-4)`). -/
def generateMaskedKey (fullKey : String) : String :=
  if fullKey.length ≤ 4 then "****"
  else "****-****-****-" ++ sliceLast4 fullKey

/-- `subscription_plan` enum: `'free' | 'pro' | 'enterprise'`. -/
inductive SubscriptionPlan where
  | free
  | pro
  | enterprise
deriving DecidableEq, Repr

/-- `subscription_status` enum: `'active' | 'canceled' | 'past_due'`. -/
inductive SubscriptionStatus where
  | active
  | canceled
  | past_due
deriving DecidableEq, Repr

/-- A JavaScript number that is either a natural or `Infinity`
(the enterprise ceilings in `PLAN_LIMITS` are `Infinity`). -/
inductive JsNumber where
  | fin : Nat → JsNumber
  | infinity : JsNumber
deriving DecidableEq, Repr

/-- JavaScript `<` on a natural against a possibly-infinite ceiling:
every finite count is below `Infinity`. -/
def jsLt (n : Nat) : JsNumber → Bool
  | .fin m => decide (n < m)
  | .infinity => true

/-- The per-plan feature flags of `PLAN_LIMITS` in src/lib/plans. -/
structure PlanFeatures where
  bulkImport : Bool
  auditLog : Bool
  prioritySupport : Bool
deriving DecidableEq, Repr

/-- The per-plan ceilings and features of `PLAN_LIMITS` in src/lib/plans. -/
structure PlanLimits where
  maxAssets : JsNumber
  maxLicenses : JsNumber
  maxMembers : JsNumber
  features : PlanFeatures
deriving DecidableEq, Repr

/-- `PLAN_LIMITS` (src/lib/plans): free 10/5/3 with no features, pro 100/50/15
with bulkImport and auditLog, enterprise unlimited with all features. -/
def PLAN_LIMITS : SubscriptionPlan → PlanLimits
  | .free => ⟨.fin 10, .fin 5, .fin 3, ⟨false, false, false⟩⟩
  | .pro => ⟨.fin 100, .fin 50, .fin 15, ⟨true, true, false⟩⟩
  | .enterprise => ⟨.infinity, .infinity, .infinity, ⟨true, true, true⟩⟩

/-- The keys of `PlanLimits['features']`. -/
inductive FeatureFlag where
  | bulkImport
  | auditLog
  | prioritySupport
deriving DecidableEq, Repr

/-- Indexing `features[flag]`. -/
def PlanFeatures.get (f : PlanFeatures) : FeatureFlag → Bool
  | .bulkImport => f.bulkImport
  | .auditLog => f.auditLog
  | .prioritySupport => f.prioritySupport

/-- The usage counters of SubscriptionContext, derived by counting live rows. -/
structure Usage where
  assets : Nat
  licenses : Nat
  members : Nat
deriving DecidableEq, Repr

/-- The columns of `organization_subscriptions` read by SubscriptionContext. -/
structure SubscriptionRow where
  plan : SubscriptionPlan
  status : SubscriptionStatus
deriving DecidableEq, Repr

/-- `const plan = subscription?.plan || 'free'` (SubscriptionContext.tsx):
a missing or failed subscription fetch resolves to the free plan. -/
def resolvedPlan : Option SubscriptionRow → SubscriptionPlan
  | none => .free
  | some s => s.plan

/-- `const status = subscription?.status || 'active'` (SubscriptionContext.tsx). -/
def resolvedStatus : Option SubscriptionRow → SubscriptionStatus
  | none => .active
  | some s => s.status

/-- `canCreateAsset` (SubscriptionContext.tsx): `false` unless the status is
`active`, else `usage.assets < limits.maxAssets`. -/
def canCreateAsset (status : SubscriptionStatus) (plan : SubscriptionPlan)
    (usage : Usage) : Bool :=
  if status ≠ SubscriptionStatus.active then false
  else jsLt usage.assets (PLAN_LIMITS plan).maxAssets

/-- `canCreateLicense` (SubscriptionContext.tsx). -/
def canCreateLicense (status : SubscriptionStatus) (plan : SubscriptionPlan)
    (usage : Usage) : Bool :=
  if status ≠ SubscriptionStatus.active then false
  else jsLt usage.licenses (PLAN_LIMITS plan).maxLicenses

/-- `canInviteMember` (SubscriptionContext.tsx). -/
def canInviteMember (status : SubscriptionStatus) (plan : SubscriptionPlan)
    (usage : Usage) : Bool :=
  if status ≠ SubscriptionStatus.active then false
  else jsLt usage.members (PLAN_LIMITS plan).maxMembers

/-- `hasFeature` (SubscriptionContext.tsx): `false` unless the status is
`active`, else the plan's flag. -/
def hasFeature (status : SubscriptionStatus) (plan : SubscriptionPlan)
    (f : FeatureFlag) : Bool :=
  if status ≠ SubscriptionStatus.active then false
  else (PLAN_LIMITS plan).features.get f

/-- A row of `public.organization_invites` (columns the embedded code reads);
timestamps are abstracted to integers. -/
structure InviteRow where
  id : Nat
  organization_id : Nat
  email : String
  role : OrgRole
  expires_at : Int
  accepted_at : Option Int
deriving DecidableEq, Repr

/-- `fetchInvite` (AcceptInvite.tsx): the query filters `accepted_at IS NULL`
(`.is("accepted_at", null).single()`), so an already-used token is reported as
not found / already used; a pending token whose `expires_at` lies in the past
is reported as expired; otherwise the invite is shown. -/
def fetchInvite (invite : InviteRow) (now : Int) : Except String InviteRow :=
  if invite.accepted_at ≠ none then .error "Invitación no encontrada o ya fue utilizada"
  else if invite.expires_at < now then .error "Esta invitación ha expirado"
  else .ok invite

/-- Policy "Users can accept their own invites" (migration 20260126210227):
`USING (email = caller email AND accepted_at IS NULL AND expires_at > now())`. -/
def inviteUpdateAllowed (invite : InviteRow) (userEmail : String) (now : Int) : Bool :=
  invite.email == userEmail && invite.accepted_at == none && now < invite.expires_at

/-- Policy "Admins can add members" on `organization_members`:
`WITH CHECK (is_org_admin(auth.uid(), organization_id)
OR (user_id = auth.uid() AND role = 'owner'))`. -/
def memberInsertAllowed (ms : List MemberRow) (uid : Nat) (row : MemberRow) : Bool :=
  is_org_admin ms uid row.organization_id
    || (row.user_id == uid && row.role == OrgRole.owner)

/-- The database errors the accept flow distinguishes: a row-level-security
denial (42501) and a `UNIQUE(organization_id, user_id)` violation (23505). -/
inductive InsertError where
  | rlsDenied
  | uniqueViolation
deriving DecidableEq, Repr

/-- An `INSERT` into `organization_members` as executed by the backend: the
policy check is evaluated first (a failing check raises 42501), then the
`UNIQUE(organization_id, user_id)` constraint (23505), then the row is added. -/
def insertMember (ms : List MemberRow) (uid : Nat) (row : MemberRow) :
    Except InsertError (List MemberRow) :=
  if !(memberInsertAllowed ms uid row) then .error .rlsDenied
  else if ms.any fun r =>
      r.organization_id == row.organization_id && r.user_id == row.user_id then
    .error .uniqueViolation
  else .ok (ms ++ [row])

/-- An `UPDATE ... SET accepted_at = now` on an invite as executed by the
backend: the row is modified only when the update policy admits it. -/
def markAccepted (invite : InviteRow) (userEmail : String) (now : Int) : InviteRow :=
  if inviteUpdateAllowed invite userEmail now then
    { invite with accepted_at := some now }
  else invite

/-- The observable outcomes of `handleAccept` (AcceptInvite.tsx). -/
inductive AcceptOutcome where
  | emailMismatch
  | joinError
  | joined
  | alreadyMember
deriving DecidableEq, Repr

/-- `handleAccept` (AcceptInvite.tsx): reject unless the caller's email equals
the invite's email up to lower-casing; insert a membership row with the
invite's role; an error other than 23505 aborts with a join error; a 23505
means the user is already a member and is treated as a no-op success; in the
surviving branches the invite is marked accepted. -/
def handleAccept (ms : List MemberRow) (invite : InviteRow) (uid : Nat)
    (userEmail : String) (now : Int) :
    AcceptOutcome × List MemberRow × InviteRow :=
  if toLowerCase userEmail ≠ toLowerCase invite.email then (.emailMismatch, ms, invite)
  else
    match insertMember ms uid ⟨invite.organization_id, uid, invite.role⟩ with
    | .error .rlsDenied => (.joinError, ms, invite)
    | .error .uniqueViolation => (.alreadyMember, ms, markAccepted invite userEmail now)
    | .ok ms2 => (.joined, ms2, markAccepted invite userEmail now)

/-- Policy "Admins can remove members" on `organization_members`:
`USING ((is_org_admin(auth.uid(), organization_id) AND user_id != auth.uid())
OR (user_id = auth.uid() AND NOT has_org_role(auth.uid(), organization_id, 'owner')))`. -/
def memberDeleteAllowed (ms : List MemberRow) (actor : Nat) (target : MemberRow) : Bool :=
  (is_org_admin ms actor target.organization_id && target.user_id != actor)
    || (target.user_id == actor
          && !(has_org_role ms actor target.organization_id OrgRole.owner))

/-- The client-side gate of OrganizationMembers.tsx that decides whether the
remove button is rendered for a member row:
`isOrgAdmin && member.role !== "owner" && member.user_id !== user?.id`. -/
def removeButtonShown (isOrgAdminFlag : Bool) (target : MemberRow)
    (currentUserId : Nat) : Bool :=
  isOrgAdminFlag && target.role != OrgRole.owner && target.user_id != currentUserId

/-- `validAssetCategories` (BulkImportDialog). -/
def validAssetCategories : List String :=
  ["laptop", "monitor", "dock", "peripheral", "other"]

/-- The result of validating one CSV asset row (`ParsedAsset` in
BulkImportDialog): the cleaned fields, the validity flag and the joined
per-row error message. -/
structure ParsedAsset where
  name : String
  category : String
  serial_number : String
  location : String
  notes : String
  valid : Bool
  error : String
deriving DecidableEq, Repr

/-- JavaScript `errors.join(", ")`. -/
def joinErrors : List String → String
  | [] => ""
  | [e] => e
  | e :: rest => e ++ ", " ++ joinErrors rest

/-- The `errors` array built for one data row by `parseAssets`
(BulkImportDialog): a missing or empty name, a name longer than 255
characters, and a category outside `validAssetCategories` (compared
lower-cased) each push their own message.  A field absent from a short row
corresponds to JavaScript `undefined` and is modelled by `none`. -/
def assetRowErrors (row : List String) : List String :=
  let name := row.get? 0
  let category := row.get? 1
  let e1 : List String :=
    if (name.getD "").length == 0 then ["Nombre requerido"] else []
  let e2 : List String :=
    match name with
    | some s => if s.length > 255 then ["Nombre muy largo"] else []
    | none => []
  let e3 : List String :=
    match category with
    | some c =>
        if validAssetCategories.contains (toLowerCase c) then []
        else ["Categoría inválida: " ++ c]
    | none => ["Categoría inválida: undefined"]
  e1 ++ e2 ++ e3

/-- Validation of a single data row by `parseAssets` (BulkImportDialog): the
cleaned fields, `valid` exactly when no error was pushed, and the per-row
error message joined with `", "`. -/
def parseAssetRow (row : List String) : ParsedAsset :=
  { name := (row.get? 0).getD ""
    category := ((row.get? 1).map toLowerCase).getD ""
    serial_number := (row.get? 2).getD ""
    location := (row.get? 3).getD ""
    notes := (row.get? 4).getD ""
    valid := (assetRowErrors row).isEmpty
    error := joinErrors (assetRowErrors row) }

/-- `parseAssets` (BulkImportDialog): the header row is skipped and every data
row is validated independently. -/
def parseAssets (rows : List (List String)) : List ParsedAsset :=
  (rows.drop 1).map parseAssetRow

/-- The 3-row asset import of the claim: a header, two rows that pass
validation and a middle row whose category is not a valid asset category. -/
def importScenarioRows : List (List String) :=
  [["name", "category", "serial_number", "location", "notes"],
   ["MacBook Pro 14", "laptop", "SN1", "Office A", "ok"],
   ["Dell Monitor", "notacategory", "SN2", "Office B", ""],
   ["Keyboard", "peripheral", "SN3", "Office C", ""]]

/-- The insertion loop of `handleImport` (BulkImportDialog) over the rows that
passed validation: each row is inserted on its own (org-scoped, so the insert
succeeds exactly when the asset insert policy admits the importing user) and
the success and error counters and the organization's live asset count are
updated per row. -/
def importAssetsLoop (ms : List MemberRow) (uid oid : Nat)
    (pending : List ParsedAsset) (successCount errorCount tableCount : Nat) :
    (Nat × Nat) × Nat :=
  match pending with
  | [] => ((successCount, errorCount), tableCount)
  | _ :: rest =>
      if assetInsertAllowed ms uid ⟨tableCount, oid, none⟩ then
        importAssetsLoop ms uid oid rest (successCount + 1) errorCount (tableCount + 1)
      else
        importAssetsLoop ms uid oid rest successCount (errorCount + 1) tableCount

/-- `handleImport` for assets (BulkImportDialog): only the rows with
`valid = true` are submitted (`parsedAssets.filter((a) => a.valid)`);
the result is the (success, error) counters and the new live asset count. -/
def handleImportAssets (ms : List MemberRow) (uid oid : Nat)
    (parsed : List ParsedAsset) (tableCount : Nat) : (Nat × Nat) × Nat :=
  importAssetsLoop ms uid oid (parsed.filter (·.valid)) 0 0 tableCount

/-- The state touched by the CreateOrganization flow: the set of organization
ids and the membership table. -/
structure CreateOrgState where
  orgs : List Nat
  members : List MemberRow
deriving DecidableEq, Repr

/-- The outcomes of `handleSubmit` (CreateOrganization.tsx). -/
inductive CreateOrgOutcome where
  | orgInsertFailed
  | memberInsertFailed
  | created
deriving DecidableEq, Repr

/-- Policy "Owners can delete organization":
`USING (has_org_role(auth.uid(), id, 'owner'))`. -/
def orgDeleteAllowed (ms : List MemberRow) (uid oid : Nat) : Bool :=
  has_org_role ms uid oid OrgRole.owner

/-- A `DELETE FROM organizations WHERE id = oid` as executed by the backend:
row-level security silently filters the statement to the rows the delete
policy admits, so an organization the caller does not own is left in place
and no error is reported. -/
def deleteOrg (st : CreateOrgState) (uid oid : Nat) : CreateOrgState :=
  { st with
    orgs := st.orgs.filter fun o => !(o == oid && orgDeleteAllowed st.members uid o) }

/-- `handleSubmit` (CreateOrganization.tsx): insert the organization (aborting
on failure); insert the creator's owner membership row (the members insert
policy admits this self-insert, so a failure here is exogenous, e.g. a network
error, modelled by the `memberInsertFails` flag); on such a failure the code
issues a compensating delete of the just-created organization, which the
backend filters through the owner-only delete policy. -/
def handleSubmit (st : CreateOrgState) (uid newOrgId : Nat)
    (orgInsertFails memberInsertFails : Bool) : CreateOrgOutcome × CreateOrgState :=
  if orgInsertFails then (.orgInsertFailed, st)
  else
    let st1 : CreateOrgState := { st with orgs := st.orgs ++ [newOrgId] }
    if memberInsertFails then (.memberInsertFailed, deleteOrg st1 uid newOrgId)
    else
      (.created,
        { st1 with members := st1.members ++ [⟨newOrgId, uid, OrgRole.owner⟩] })

/-! ## Helper lemmas about the tenancy predicates -/

theorem is_org_member_eq_true_iff (ms : List MemberRow) (u o : Nat) :
    is_org_member ms u o = true
      ↔ ∃ r ∈ ms, r.user_id = u ∧ r.organization_id = o := by
  simp [is_org_member, List.any_eq_true, Bool.and_eq_true, beq_iff_eq]

theorem has_org_role_eq_true_iff (ms : List MemberRow) (u o : Nat) (ρ : OrgRole) :
    has_org_role ms u o ρ = true
      ↔ ∃ r ∈ ms, r.user_id = u ∧ r.organization_id = o ∧ r.role = ρ := by
  simp [has_org_role, List.any_eq_true, Bool.and_eq_true, beq_iff_eq, and_assoc]

theorem is_org_admin_eq_true_iff (ms : List MemberRow) (u o : Nat) :
    is_org_admin ms u o = true
      ↔ ∃ r ∈ ms, r.user_id = u ∧ r.organization_id = o
          ∧ (r.role = OrgRole.admin ∨ r.role = OrgRole.owner) := by
  simp [is_org_admin, List.any_eq_true, Bool.and_eq_true, Bool.or_eq_true,
    beq_iff_eq, and_assoc]

theorem cross_org_predicates_false (ms : List MemberRow) (u o1 o2 : Nat)
    (honly : ∀ r ∈ ms, r.user_id = u → r.organization_id = o1)
    (hne : o1 ≠ o2) :
    is_org_member ms u o2 = false ∧ is_org_admin ms u o2 = false
      ∧ ∀ ρ, has_org_role ms u o2 ρ = false := by
  refine ⟨?_, ?_, fun ρ => ?_⟩
  · rw [← Bool.not_eq_true, is_org_member_eq_true_iff]
    rintro ⟨r, hr, hu, ho⟩
    exact hne ((honly r hr hu).symm.trans ho)
  · rw [← Bool.not_eq_true, is_org_admin_eq_true_iff]
    rintro ⟨r, hr, hu, ho, -⟩
    exact hne ((honly r hr hu).symm.trans ho)
  · rw [← Bool.not_eq_true, has_org_role_eq_true_iff]
    rintro ⟨r, hr, hu, ho, -⟩
    exact hne ((honly r hr hu).symm.trans ho)

/-! ## Helper lemmas about strings and the import loop -/

theorem string_data_append (a b : String) : (a ++ b).data = a.data ++ b.data := rfl

theorem string_eq_empty_of_length_eq_zero {s : String} (h : s.length = 0) : s = "" := by
  cases s with
  | mk data =>
      cases data with
      | nil => rfl
      | cons c cs => simp [String.length] at h

theorem string_length_append (a b : String) :
    (a ++ b).length = a.length + b.length :=
  List.length_append a.data b.data

theorem string_append_ne_empty_left (a b : String) (ha : a ≠ "") : a ++ b ≠ "" := by
  intro h
  apply ha
  apply string_eq_empty_of_length_eq_zero
  have hl : a.length + b.length = 0 := by
    simpa [string_length_append] using congrArg String.length h
  omega

theorem joinErrors_ne_empty (l : List String) (h1 : ∀ e ∈ l, e ≠ "") (h2 : l ≠ []) :
    joinErrors l ≠ "" := by
  match l with
  | [] => exact absurd rfl h2
  | [e] => simpa [joinErrors] using h1 e (by simp)
  | e :: f :: rest =>
      have he : e ≠ "" := h1 e (by simp)
      show (e ++ ", ") ++ joinErrors (f :: rest) ≠ ""
      exact string_append_ne_empty_left _ _ (string_append_ne_empty_left e ", " he)

theorem assetRowErrors_elems_ne_empty (row : List String) :
    ∀ e ∈ assetRowErrors row, e ≠ "" := by
  intro e he
  simp only [assetRowErrors] at he
  rcases List.mem_append.mp he with h12 | h3
  · rcases List.mem_append.mp h12 with h1 | h2
    · split_ifs at h1 <;> simp at h1
      subst h1
      decide
    · rcases hn : row.get? 0 with _ | name <;> rw [hn] at h2
      · simp at h2
      · simp at h2
        obtain ⟨-, rfl⟩ := h2
        decide
  · rcases hc : row.get? 1 with _ | cat <;> rw [hc] at h3
    · simp at h3
      subst h3
      decide
    · simp at h3
      obtain ⟨-, rfl⟩ := h3
      exact string_append_ne_empty_left "Categoría inválida: " cat (by decide)

theorem parseAssetRow_error_ne_of_invalid (row : List String)
    (h : (parseAssetRow row).valid = false) : (parseAssetRow row).error ≠ "" := by
  have h2 : (assetRowErrors row).isEmpty = false := h
  have hne : assetRowErrors row ≠ [] := by
    intro hnil
    rw [hnil] at h2
    simp at h2
  exact joinErrors_ne_empty _ (assetRowErrors_elems_ne_empty row) hne

theorem importAssetsLoop_admin (ms : List MemberRow) (uid oid : Nat)
    (h : is_org_admin ms uid oid = true) :
    ∀ (pending : List ParsedAsset) (s e t : Nat),
      importAssetsLoop ms uid oid pending s e t
        = ((s + pending.length, e), t + pending.length) := by
  intro pending
  induction pending with
  | nil => intro s e t; simp [importAssetsLoop]
  | cons p rest ih =>
      intro s e t
      have hp : assetInsertAllowed ms uid ⟨t, oid, none⟩ = true := h
      simp [importAssetsLoop, hp, ih]
      omega

/-! ## Claim theorems -/

/-- C1 (amended).  `is_org_member` returns true iff a membership row exists for
the pair, and for organizations `o1 ≠ o2` and a user who is a member only of
`o1`, every read of an `o2`-scoped asset, license or audit-log row is denied
and every write is denied as well, with one exception the policies allow: an
update of an `o2` asset row whose `assignee_user_id` is the user. -/
theorem tenancy_guard_cross_org (ms : List MemberRow) (u o1 o2 : Nat)
    (_hmem : is_org_member ms u o1 = true)
    (honly : ∀ r ∈ ms, r.user_id = u → r.organization_id = o1)
    (hne : o1 ≠ o2) :
    (∀ o, is_org_member ms u o = true ↔ ∃ r ∈ ms, r.user_id = u ∧ r.organization_id = o)
    ∧ (∀ a : AssetRow, a.organization_id = o2 →
        assetSelectAllowed ms u a = false ∧ assetInsertAllowed ms u a = false
          ∧ assetDeleteAllowed ms u a = false
          ∧ (assetUpdateAllowed ms u a = true ↔ a.assignee_user_id = some u))
    ∧ (∀ l : LicenseRow, l.organization_id = o2 →
        licenseSelectAllowed ms u l = false ∧ licenseInsertAllowed ms u l = false
          ∧ licenseUpdateAllowed ms u l = false ∧ licenseDeleteAllowed ms u l = false
          ∧ licensesSafeVisible ms u l = false)
    ∧ (∀ e : AuditLogRow, e.organization_id = o2 →
        auditSelectAllowed ms u e = false ∧ auditInsertAllowed ms u e = false) := by
  obtain ⟨hm, ha, hrole⟩ := cross_org_predicates_false ms u o1 o2 honly hne
  refine ⟨fun o => is_org_member_eq_true_iff ms u o, ?_, ?_, ?_⟩
  · intro a hor
    refine ⟨?_, ?_, ?_, ?_⟩
    · simp [assetSelectAllowed, hor, hm]
    · simp [assetInsertAllowed, hor, ha]
    · simp [assetDeleteAllowed, hor, ha]
    · simp [assetUpdateAllowed, hor, ha]
  · intro l hor
    refine ⟨?_, ?_, ?_, ?_, ?_⟩
    · simp [licenseSelectAllowed, hor, ha]
    · simp [licenseInsertAllowed, hor, ha]
    · simp [licenseUpdateAllowed, hor, ha]
    · simp [licenseDeleteAllowed, hor, ha]
    · simp [licensesSafeVisible, hor, hm]
  · intro e hor
    exact ⟨by simp [auditSelectAllowed, hor, hm], by simp [auditInsertAllowed, hor, hm]⟩

/-- C1 counterexample.  The claim states that every write by a user who is a
member only of organization 1 against an organization-2 row is denied; but the
asset update policy also admits the row's assignee, so a user who is a member
only of organization 1 yet is the assignee of an organization-2 asset may
update that asset. -/
theorem tenancy_guard_cross_org_cex :
    is_org_member [⟨1, 10, OrgRole.member⟩] 10 1 = true
    ∧ (∀ r ∈ [(⟨1, 10, OrgRole.member⟩ : MemberRow)],
        r.user_id = 10 → r.organization_id = 1)
    ∧ (1 : Nat) ≠ 2
    ∧ assetUpdateAllowed [⟨1, 10, OrgRole.member⟩] 10 ⟨99, 2, some 10⟩ = true := by
  exact ⟨by decide, by decide, by decide, by decide⟩

/-- Witness for the C1 theorem at a concrete state. -/
theorem tenancy_guard_cross_org_witness :
    assetSelectAllowed [⟨1, 10, OrgRole.member⟩] 10 ⟨99, 2, none⟩ = false
    ∧ licenseSelectAllowed [⟨1, 10, OrgRole.member⟩] 10 ⟨5, 2, none⟩ = false
    ∧ auditSelectAllowed [⟨1, 10, OrgRole.member⟩] 10 ⟨3, 2, 10⟩ = false := by
  have h := tenancy_guard_cross_org [⟨1, 10, OrgRole.member⟩] 10 1 2
    (by decide) (by decide) (by decide)
  exact ⟨(h.2.1 _ rfl).1, (h.2.2.1 _ rfl).1, (h.2.2.2 _ rfl).1⟩

/-- C2 (amended).  `get_license_full_key` answers with the authorization error
`'Unauthorized: Only admins can access full license keys'` exactly when the
caller fails the legacy global `is_admin` check on `profiles.role` — not a
check of the caller's role in the license's organization — and in that case
the answer is independent of the license table, so it carries no key material;
a caller who passes the global check receives the stored key. -/
theorem reveal_full_key_requires_global_admin (profiles : List ProfileRow)
    (licenses : List LicenseRow) (uid lid : Nat) :
    (get_license_full_key profiles licenses uid lid
        = .error "Unauthorized: Only admins can access full license keys"
      ↔ is_admin profiles uid = false)
    ∧ (is_admin profiles uid = false → ∀ licenses2,
        get_license_full_key profiles licenses uid lid
          = get_license_full_key profiles licenses2 uid lid)
    ∧ (is_admin profiles uid = true →
        get_license_full_key profiles licenses uid lid
          = .ok ((licenses.find? fun l => l.id == lid).bind fun l => l.seat_key_full)) := by
  cases h : is_admin profiles uid with
  | false =>
      refine ⟨by simp [get_license_full_key, h], ?_, by simp⟩
      intro _ licenses2
      simp [get_license_full_key, h]
  | true =>
      refine ⟨by simp [get_license_full_key, h], by simp, ?_⟩
      intro _
      simp [get_license_full_key, h]

/-- C2 counterexample.  A caller whose membership role in the license's
organization is only `member` (so not an organization admin) but whose legacy
global profile role is `admin` receives the full key, which the claim
forbids. -/
theorem reveal_full_key_requires_global_admin_cex :
    is_org_admin [⟨7, 42, OrgRole.member⟩] 42 7 = false
    ∧ has_org_role [⟨7, 42, OrgRole.member⟩] 42 7 OrgRole.member = true
    ∧ get_license_full_key [⟨42, AppRole.admin⟩] [⟨5, 7, some "SECRET-FULL-KEY"⟩] 42 5
        = .ok (some "SECRET-FULL-KEY") := by
  exact ⟨by decide, by decide, rfl⟩

/-- Witness for the C2 theorem at a concrete state. -/
theorem reveal_full_key_requires_global_admin_witness :
    get_license_full_key [⟨9, AppRole.employee⟩] [⟨5, 7, some "SECRET-FULL-KEY"⟩] 9 5
      = .error "Unauthorized: Only admins can access full license keys" := by
  exact ((reveal_full_key_requires_global_admin [⟨9, AppRole.employee⟩]
    [⟨5, 7, some "SECRET-FULL-KEY"⟩] 9 5).1).mpr (by decide)

/-- C3.  Each creation gate returns true iff the subscription status is
`active` and the live count of the resource kind is strictly below the plan's
ceiling (free 10/5/3, pro 100/50/15, enterprise unlimited); a `canceled` or
`past_due` status makes every gate and every feature flag false regardless of
plan and counts, and an active enterprise subscription passes every gate at
every count. -/
theorem plan_limit_gate (s : SubscriptionStatus) (p : SubscriptionPlan) (u : Usage) :
    (canCreateAsset s .free u = true ↔ s = .active ∧ u.assets < 10)
    ∧ (canCreateLicense s .free u = true ↔ s = .active ∧ u.licenses < 5)
    ∧ (canInviteMember s .free u = true ↔ s = .active ∧ u.members < 3)
    ∧ (canCreateAsset s .pro u = true ↔ s = .active ∧ u.assets < 100)
    ∧ (canCreateLicense s .pro u = true ↔ s = .active ∧ u.licenses < 50)
    ∧ (canInviteMember s .pro u = true ↔ s = .active ∧ u.members < 15)
    ∧ (canCreateAsset s .enterprise u = true ↔ s = .active)
    ∧ (canCreateLicense s .enterprise u = true ↔ s = .active)
    ∧ (canInviteMember s .enterprise u = true ↔ s = .active)
    ∧ (s = .canceled ∨ s = .past_due →
        canCreateAsset s p u = false ∧ canCreateLicense s p u = false
          ∧ canInviteMember s p u = false ∧ ∀ f, hasFeature s p f = false) := by
  cases s <;>
    simp [canCreateAsset, canCreateLicense, canInviteMember, hasFeature,
      PLAN_LIMITS, jsLt]

/-- Witness for the C3 theorem at concrete statuses, plans and counts. -/
theorem plan_limit_gate_witness :
    canCreateAsset .active .free ⟨9, 0, 0⟩ = true
    ∧ canCreateAsset .past_due .enterprise ⟨0, 0, 0⟩ = false
    ∧ canCreateAsset .active .enterprise ⟨1000000, 0, 0⟩ = true := by
  refine ⟨?_, ?_, ?_⟩
  · exact ((plan_limit_gate .active .free ⟨9, 0, 0⟩).1).mpr ⟨rfl, by decide⟩
  · exact ((plan_limit_gate .past_due .enterprise ⟨0, 0, 0⟩).2.2.2.2.2.2.2.2.2
      (Or.inr rfl)).1
  · exact ((plan_limit_gate .active .enterprise ⟨1000000, 0, 0⟩).2.2.2.2.2.2.1).mpr rfl

/-- C4 (amended).  The delete policy on `organization_members` permits a
removal exactly when (a) the actor holds the `admin` or `owner` role in the
target row's organization and the target row is not the actor's own, or
(b) the target row is the actor's own and the actor does not hold the `owner`
role there; the policy never inspects the target's role, so owner rows are
removable by other admins — the owner-protection of the claim exists only in
the client, which does not render the remove button for owner rows. -/
theorem member_removal_rule (ms : List MemberRow) (actor : Nat) (t : MemberRow) :
    (memberDeleteAllowed ms actor t = true ↔
      ((∃ r ∈ ms, r.user_id = actor ∧ r.organization_id = t.organization_id
          ∧ (r.role = OrgRole.admin ∨ r.role = OrgRole.owner)) ∧ t.user_id ≠ actor)
      ∨ (t.user_id = actor
          ∧ ¬ ∃ r ∈ ms, r.user_id = actor ∧ r.organization_id = t.organization_id
              ∧ r.role = OrgRole.owner))
    ∧ (∀ flag uid, t.role = OrgRole.owner → removeButtonShown flag t uid = false) := by
  constructor
  · rw [memberDeleteAllowed, Bool.or_eq_true, Bool.and_eq_true, Bool.and_eq_true,
      is_org_admin_eq_true_iff, bne_iff_ne, beq_iff_eq, Bool.not_eq_true',
      ← Bool.not_eq_true, has_org_role_eq_true_iff]
  · intro flag uid h
    simp [removeButtonShown, h]

/-- C4 counterexample.  The claim denies any admin-path removal of an owner
row, but the delete policy permits an `admin`-role actor to remove another
member's `owner` row. -/
theorem member_removal_rule_cex :
    has_org_role [⟨1, 10, OrgRole.admin⟩, ⟨1, 20, OrgRole.owner⟩] 20 1 OrgRole.owner = true
    ∧ has_org_role [⟨1, 10, OrgRole.admin⟩, ⟨1, 20, OrgRole.owner⟩] 10 1 OrgRole.admin = true
    ∧ memberDeleteAllowed [⟨1, 10, OrgRole.admin⟩, ⟨1, 20, OrgRole.owner⟩] 10
        ⟨1, 20, OrgRole.owner⟩ = true := by
  exact ⟨by decide, by decide, by decide⟩

/-- Witness for the C4 theorem at a concrete state. -/
theorem member_removal_rule_witness :
    memberDeleteAllowed [⟨1, 10, OrgRole.admin⟩] 10 ⟨1, 10, OrgRole.admin⟩ = true
    ∧ removeButtonShown true ⟨1, 20, OrgRole.owner⟩ 10 = false := by
  refine ⟨?_, ?_⟩
  · exact ((member_removal_rule [⟨1, 10, OrgRole.admin⟩] 10 ⟨1, 10, OrgRole.admin⟩).1).mpr
      (Or.inr ⟨rfl, by decide⟩)
  · exact (member_removal_rule [] 10 ⟨1, 20, OrgRole.owner⟩).2 true 10 rfl

/-- C5 (code bug).  The invite round trip of the claim fails on the code: the
accepting user's email matches the invite up to case, the organization has an
owner and the user is not yet a member, yet the membership insert of
`handleAccept` is denied by the insert policy on `organization_members`
(which only admits organization admins or a self-insert with role `owner`,
and the accepting user is neither), so the flow ends in a join error and no
membership row is created for the invited role `admin`. -/
theorem accept_invite_blocked_by_member_insert_policy :
    toLowerCase "USER@x.com" = toLowerCase "user@x.com"
    ∧ is_org_member [⟨1, 2, OrgRole.owner⟩] 9 1 = false
    ∧ memberInsertAllowed [⟨1, 2, OrgRole.owner⟩] 9 ⟨1, 9, OrgRole.admin⟩ = false
    ∧ handleAccept [⟨1, 2, OrgRole.owner⟩] ⟨4, 1, "user@x.com", OrgRole.admin, 100, none⟩
        9 "USER@x.com" 50
      = (.joinError, [⟨1, 2, OrgRole.owner⟩],
         ⟨4, 1, "user@x.com", OrgRole.admin, 100, none⟩) := by
  exact ⟨rfl, by decide, by decide, rfl⟩

/-- C6.  An invite is never accepted once it has left the pending state or has
expired: `fetchInvite` reports an already-used token as not found / already
used (the query filters `accepted_at IS NULL`), reports a pending token whose
expiry has passed as expired even though `accepted_at` is still null, and the
server-side update policy rejects marking any such invite accepted. -/
theorem invite_single_use_and_expiry (invite : InviteRow) (now : Int) :
    (∀ t, invite.accepted_at = some t →
      fetchInvite invite now = .error "Invitación no encontrada o ya fue utilizada")
    ∧ (invite.accepted_at = none → invite.expires_at < now →
      fetchInvite invite now = .error "Esta invitación ha expirado")
    ∧ (invite.accepted_at ≠ none → ∀ e, inviteUpdateAllowed invite e now = false)
    ∧ (invite.expires_at ≤ now → ∀ e, inviteUpdateAllowed invite e now = false) := by
  refine ⟨?_, ?_, ?_, ?_⟩
  · intro t h
    simp [fetchInvite, h]
  · intro h hlt
    simp [fetchInvite, h, hlt]
  · intro h e
    simp [inviteUpdateAllowed, h]
  · intro h e
    simp [inviteUpdateAllowed, not_lt.mpr h]

/-- Witness for the C6 theorem at concrete invites. -/
theorem invite_single_use_and_expiry_witness :
    fetchInvite ⟨4, 1, "a@b.c", OrgRole.member, 100, some 60⟩ 50
      = .error "Invitación no encontrada o ya fue utilizada"
    ∧ fetchInvite ⟨4, 1, "a@b.c", OrgRole.member, 10, none⟩ 50
      = .error "Esta invitación ha expirado"
    ∧ inviteUpdateAllowed ⟨4, 1, "a@b.c", OrgRole.member, 100, some 60⟩ "a@b.c" 50
      = false := by
  refine ⟨(invite_single_use_and_expiry _ 50).1 60 rfl,
    (invite_single_use_and_expiry _ 50).2.1 rfl (by decide),
    (invite_single_use_and_expiry _ 50).2.2.1 (by decide) "a@b.c"⟩

/-- C9.  When no subscription row is available (missing row or fetch error,
both of which leave the context's subscription `null`), the provider resolves
to plan `free` with status `active`, so the free ceilings 10/5/3 and the free
feature flags (all off) govern every gate rather than the gates being
disabled or unbounded. -/
theorem missing_subscription_defaults_to_free_active (usage : Usage) (f : FeatureFlag) :
    resolvedPlan none = SubscriptionPlan.free
    ∧ resolvedStatus none = SubscriptionStatus.active
    ∧ PLAN_LIMITS (resolvedPlan none)
        = ⟨.fin 10, .fin 5, .fin 3, ⟨false, false, false⟩⟩
    ∧ canCreateAsset (resolvedStatus none) (resolvedPlan none) usage
        = decide (usage.assets < 10)
    ∧ canCreateLicense (resolvedStatus none) (resolvedPlan none) usage
        = decide (usage.licenses < 5)
    ∧ canInviteMember (resolvedStatus none) (resolvedPlan none) usage
        = decide (usage.members < 3)
    ∧ hasFeature (resolvedStatus none) (resolvedPlan none) f = false := by
  refine ⟨rfl, rfl, rfl, ?_, ?_, ?_, ?_⟩
  · simp [canCreateAsset, resolvedStatus, resolvedPlan, PLAN_LIMITS, jsLt]
  · simp [canCreateLicense, resolvedStatus, resolvedPlan, PLAN_LIMITS, jsLt]
  · simp [canInviteMember, resolvedStatus, resolvedPlan, PLAN_LIMITS, jsLt]
  · cases f <;> rfl

/-- C10 (code bug).  When the owner-membership insert fails after the
organization row was created, the code issues a compensating delete, but the
backend filters that delete through the owner-only policy and the creator has
no membership row at that point, so nothing is deleted: the flow ends with an
orphan organization that has no members at all, contradicting the claim that
the organization row is removed. -/
theorem create_organization_orphan_on_member_failure :
    handleSubmit ⟨[], []⟩ 1 5 false true
      = (.memberInsertFailed, ⟨[5], []⟩)
    ∧ orgDeleteAllowed ([] : List MemberRow) 1 5 = false
    ∧ (handleSubmit ⟨[], []⟩ 1 5 false true).2.orgs = [5]
    ∧ is_org_member (handleSubmit ⟨[], []⟩ 1 5 false true).2.members 1 5 = false := by
  exact ⟨by decide, by decide, by decide, by decide⟩

/-- C7.  CSV rows are validated independently and exactly the rows that pass
validation are committed: when the importing user passes the asset insert
policy, the success counter equals the number of valid rows, no insert
errors occur, and the live asset count grows by exactly that number; every
invalid row carries its own non-empty error message; and in the claim's
3-row scenario (only row 2 has an invalid category) rows 1 and 3 are
committed and the count increases by exactly 2. -/
theorem csv_import_commits_valid_rows (ms : List MemberRow) (uid oid : Nat)
    (rows : List (List String)) (tableCount : Nat)
    (hadmin : is_org_admin ms uid oid = true) :
    (handleImportAssets ms uid oid (parseAssets rows) tableCount
        = ((((parseAssets rows).filter (·.valid)).length, 0),
           tableCount + ((parseAssets rows).filter (·.valid)).length))
    ∧ (∀ p ∈ parseAssets rows, p.valid = false → p.error ≠ "")
    ∧ (parseAssets importScenarioRows).map (·.valid) = [true, false, true]
    ∧ (parseAssets importScenarioRows).map (·.error)
        = ["", "Categoría inválida: notacategory", ""]
    ∧ handleImportAssets ms uid oid (parseAssets importScenarioRows) tableCount
        = ((2, 0), tableCount + 2) := by
  refine ⟨?_, ?_, by decide, by decide, ?_⟩
  · have h := importAssetsLoop_admin ms uid oid hadmin
      ((parseAssets rows).filter (·.valid)) 0 0 tableCount
    unfold handleImportAssets
    rw [h]
    simp
  · intro p hp hval
    obtain ⟨r, hr, rfl⟩ := List.mem_map.mp hp
    exact parseAssetRow_error_ne_of_invalid r hval
  · have h := importAssetsLoop_admin ms uid oid hadmin
      ((parseAssets importScenarioRows).filter (·.valid)) 0 0 tableCount
    unfold handleImportAssets
    rw [h]
    have hlen : ((parseAssets importScenarioRows).filter (·.valid)).length = 2 := by decide
    rw [hlen]

/-- Witness for the C7 theorem: the 3-row scenario imported by an admin into
an organization that already holds 4 assets. -/
theorem csv_import_commits_valid_rows_witness :
    handleImportAssets [⟨1, 7, OrgRole.admin⟩] 7 1 (parseAssets importScenarioRows) 4
      = ((2, 0), 6) := by
  exact (csv_import_commits_valid_rows [⟨1, 7, OrgRole.admin⟩] 7 1
    importScenarioRows 4 (by decide)).2.2.2.2

/-- C8.  Masked-key derivation is a function of the full key alone: a key of
length at most 4 masks to exactly `"****"`, a longer key masks to
`"****-****-****-"` followed by the key's last 4 characters, every character
of the output is a placeholder (`'*'` or `'-'`) or one of the key's last 4
characters, and `generateMaskedKey "ABCD-1234-WXYZ-9999"` equals
`"****-****-****-9999"`. -/
theorem masked_key_derivation (fullKey : String) :
    (fullKey.length ≤ 4 → generateMaskedKey fullKey = "****")
    ∧ (4 < fullKey.length →
        generateMaskedKey fullKey = "****-****-****-" ++ sliceLast4 fullKey)
    ∧ (∀ c ∈ (generateMaskedKey fullKey).data,
        c = '*' ∨ c = '-' ∨ c ∈ (sliceLast4 fullKey).data)
    ∧ generateMaskedKey "ABCD-1234-WXYZ-9999" = "****-****-****-9999" := by
  refine ⟨?_, ?_, ?_, by decide⟩
  · intro h
    simp [generateMaskedKey, h]
  · intro h
    simp [generateMaskedKey, Nat.not_le.mpr h]
  · intro c hc
    by_cases h : fullKey.length ≤ 4
    · have hg : generateMaskedKey fullKey = "****" := by simp [generateMaskedKey, h]
      rw [hg] at hc
      have hstar : ∀ x ∈ ("****").data, x = '*' := by decide
      exact Or.inl (hstar c hc)
    · have hg : generateMaskedKey fullKey = "****-****-****-" ++ sliceLast4 fullKey := by
        simp [generateMaskedKey, h]
      rw [hg, string_data_append] at hc
      rcases List.mem_append.mp hc with h1 | h2
      · have hpre : ∀ x ∈ ("****-****-****-").data, x = '*' ∨ x = '-' := by decide
        rcases hpre c h1 with hx | hx
        · exact Or.inl hx
        · exact Or.inr (Or.inl hx)
      · exact Or.inr (Or.inr h2)

/-- Witness for the C8 theorem at a short and a long key. -/
theorem masked_key_derivation_witness :
    generateMaskedKey "AB" = "****"
    ∧ generateMaskedKey "ABCD-1234-WXYZ-9999" = "****-****-****-9999" := by
  exact ⟨(masked_key_derivation "AB").1 (by decide),
    (masked_key_derivation "ABCD-1234-WXYZ-9999").2.2.2⟩

end TeamAssetBuddy
